import Mathlib

/-!
Verification of the packaging manifest `setup.py` of the `rewroute`
repository.

The script performs two observable steps, in program order:

1. `with open("README.md", "r", encoding="utf-8") as fh: long_description = fh.read()`
   It opens `README.md` (a missing file raises `FileNotFoundError`), and
   decodes its bytes as strict UTF-8 (invalid bytes raise a
   `UnicodeDecodeError` from `fh.read()`).
2. `setup(...)` with the literal keyword arguments of lines 6-38, where
   `long_description` is the decoded README text and `packages` is the
   result of the library call `find_packages()`.

The embedding models the build-time directory state as a partial map from
file names to byte lists, the strict UTF-8 decoder of Python explicitly,
and `find_packages` (an external setuptools library routine scanning the
directory, not code of this repository) as a function parameter over the
same directory state.
-/

/-- A build-time directory state: file name to byte content, `none` when the
file is absent. Bytes are naturals below 256. -/
def FileSystem : Type := String → Option (List Nat)

/-- Whether a byte is a UTF-8 continuation byte (0x80-0xBF). -/
def isCont (b : Nat) : Bool := decide (0x80 ≤ b ∧ b ≤ 0xBF)

/-- Strict UTF-8 decoding of a byte list into a list of Unicode code
points, as performed by Python's `open(..., encoding="utf-8").read()`:
rejects overlong encodings, surrogate code points (0xD800-0xDFFF) and
code points above 0x10FFFF. Returns `none` exactly when the bytes are not
valid UTF-8. -/
def utf8Decode : List Nat → Option (List Nat)
  | [] => some []
  | b :: bs =>
    if b ≤ 0x7F then
      (utf8Decode bs).map (fun cs => b :: cs)
    else if 0xC2 ≤ b ∧ b ≤ 0xDF then
      match bs with
      | b1 :: bs1 =>
        if isCont b1 then
          (utf8Decode bs1).map (fun cs => ((b - 0xC0) * 0x40 + (b1 - 0x80)) :: cs)
        else none
      | [] => none
    else if b = 0xE0 then
      match bs with
      | b1 :: b2 :: bs2 =>
        if decide (0xA0 ≤ b1 ∧ b1 ≤ 0xBF) ∧ isCont b2 then
          (utf8Decode bs2).map
            (fun cs => ((b1 - 0x80) * 0x40 + (b2 - 0x80)) :: cs)
        else none
      | _ => none
    else if (0xE1 ≤ b ∧ b ≤ 0xEC) ∨ b = 0xEE ∨ b = 0xEF then
      match bs with
      | b1 :: b2 :: bs2 =>
        if isCont b1 ∧ isCont b2 then
          (utf8Decode bs2).map
            (fun cs => ((b - 0xE0) * 0x1000 + (b1 - 0x80) * 0x40 + (b2 - 0x80)) :: cs)
        else none
      | _ => none
    else if b = 0xED then
      match bs with
      | b1 :: b2 :: bs2 =>
        if decide (0x80 ≤ b1 ∧ b1 ≤ 0x9F) ∧ isCont b2 then
          (utf8Decode bs2).map
            (fun cs => (0xD000 + (b1 - 0x80) * 0x40 + (b2 - 0x80)) :: cs)
        else none
      | _ => none
    else if b = 0xF0 then
      match bs with
      | b1 :: b2 :: b3 :: bs3 =>
        if decide (0x90 ≤ b1 ∧ b1 ≤ 0xBF) ∧ isCont b2 ∧ isCont b3 then
          (utf8Decode bs3).map
            (fun cs =>
              ((b1 - 0x80) * 0x1000 + (b2 - 0x80) * 0x40 + (b3 - 0x80)) :: cs)
        else none
      | _ => none
    else if 0xF1 ≤ b ∧ b ≤ 0xF3 then
      match bs with
      | b1 :: b2 :: b3 :: bs3 =>
        if isCont b1 ∧ isCont b2 ∧ isCont b3 then
          (utf8Decode bs3).map
            (fun cs =>
              ((b - 0xF0) * 0x40000 + (b1 - 0x80) * 0x1000 +
                (b2 - 0x80) * 0x40 + (b3 - 0x80)) :: cs)
        else none
      | _ => none
    else if b = 0xF4 then
      match bs with
      | b1 :: b2 :: b3 :: bs3 =>
        if decide (0x80 ≤ b1 ∧ b1 ≤ 0x8F) ∧ isCont b2 ∧ isCont b3 then
          (utf8Decode bs3).map
            (fun cs =>
              (0x100000 + (b1 - 0x80) * 0x1000 +
                (b2 - 0x80) * 0x40 + (b3 - 0x80)) :: cs)
        else none
      | _ => none
    else none

/-- The keyword arguments passed to `setuptools.setup` on lines 6-38 of
`setup.py`. `long_description` is kept as the decoded code-point list. -/
structure SetupArgs where
  name : String
  version : String
  author : String
  author_email : String
  description : String
  long_description : List Nat
  long_description_content_type : String
  url : String
  packages : List String
  classifiers : List String
  python_requires : String
  install_requires : List String
  extras_require : List (String × List String)
  deriving Repr, DecidableEq

/-- The errors the script can surface to the packaging tool invoker:
`FileNotFoundError` from `open`, `UnicodeDecodeError` from `fh.read()`. -/
inductive BuildError where
  | fileNotFound (path : String)
  | decodeError (path : String)
  deriving Repr, DecidableEq

/-- The `setup(...)` call of lines 6-38 with its literal arguments, given
the decoded README text and the `find_packages()` result. -/
def setupCallArgs (long_description : List Nat) (packages : List String) : SetupArgs :=
  { name := "rewroute"
    version := "0.1.0"
    author := "bw"
    author_email := "b7w@pkg.bio"
    description := "a lightweight proxy hosting thing"
    long_description := long_description
    long_description_content_type := "text/markdown"
    url := "https://github.com/cabinfvr/rewroute"
    packages := packages
    classifiers :=
      [ "Development Status :: 3 - Alpha"
      , "Intended Audience :: Developers"
      , "License :: OSI Approved :: MIT License"
      , "Operating System :: OS Independent"
      , "Programming Language :: Python :: 3"
      , "Programming Language :: Python :: 3.7"
      , "Programming Language :: Python :: 3.8"
      , "Programming Language :: Python :: 3.9"
      , "Programming Language :: Python :: 3.10"
      , "Programming Language :: Python :: 3.11" ]
    python_requires := ">=3.7"
    install_requires := []
    extras_require := [("dev", ["pytest>=6.0", "black", "flake8"])] }

/-- Executing `setup.py` top to bottom: read and UTF-8-decode `README.md`
(lines 3-4); on success call `setup` with the literal metadata (lines
6-38). `findPackages` stands for the external setuptools `find_packages`
routine, a function of the directory state. -/
def processSetup (fs : FileSystem) (findPackages : FileSystem → List String) :
    Except BuildError SetupArgs :=
  match fs "README.md" with
  | none => .error (.fileNotFound "README.md")
  | some bytes =>
    match utf8Decode bytes with
    | none => .error (.decodeError "README.md")
    | some text => .ok (setupCallArgs text (findPackages fs))

/-- Observable events of a run of `setup.py`, in program order. -/
inductive BuildEvent where
  | readmeReadOk
  | readmeReadFailed
  | setupCalled
  deriving Repr, DecidableEq

/-- The event trace of a run of `setup.py`: the read of lines 3-4 happens
first; the `setup` call of line 6 is reached only if the read succeeded. -/
def buildTrace (fs : FileSystem) : List BuildEvent :=
  match fs "README.md" with
  | none => [.readmeReadFailed]
  | some bytes =>
    match utf8Decode bytes with
    | none => [.readmeReadFailed]
    | some _ => [.readmeReadOk, .setupCalled]

/-- The metadata fields named by the determinism claim, projected out of
the `setup` arguments (every field except `packages`). -/
def observedMetadata (a : SetupArgs) :
    String × String × String × String × String × List Nat × String × String ×
      List String × String × List String × List (String × List String) :=
  (a.name, a.version, a.author, a.author_email, a.description,
    a.long_description, a.long_description_content_type, a.url,
    a.classifiers, a.python_requires, a.install_requires, a.extras_require)

/-- A concrete directory state holding a README of two ASCII bytes. -/
def fsWithReadme : FileSystem :=
  fun p => if p = "README.md" then some [104, 105] else none

/-- A concrete directory state with no README. -/
def fsEmpty : FileSystem := fun _ => none

/-- A concrete directory state whose README bytes are not valid UTF-8. -/
def fsBadReadme : FileSystem :=
  fun p => if p = "README.md" then some [0x80] else none

/-- A concrete stand-in for the setuptools `find_packages` routine. -/
def fpNone : FileSystem → List String := fun _ => []

/-- A second concrete directory state: same README bytes as
`fsWithReadme`, different elsewhere. -/
def fsWithReadmeB : FileSystem :=
  fun p => if p = "README.md" then some [104, 105] else some [0]

/-- A second concrete stand-in for `find_packages`. -/
def fpOther : FileSystem → List String := fun _ => ["rewroute"]

/-- Claim C1: with a valid, readable `README.md` present alongside the
manifest, processing `setup.py` succeeds and the constructed metadata
reports name `rewroute`, version `0.1.0` and Python requirement
`>=3.7`. -/
theorem readme_present_metadata (fs : FileSystem) (fp : FileSystem → List String)
    (bytes text : List Nat) (hr : fs "README.md" = some bytes)
    (hd : utf8Decode bytes = some text) :
    ∃ args, processSetup fs fp = .ok args ∧ args.name = "rewroute" ∧
      args.version = "0.1.0" ∧ args.python_requires = ">=3.7" := by
  refine ⟨setupCallArgs text (fp fs), ?_, rfl, rfl, rfl⟩
  simp [processSetup, hr, hd]

/-- Witness for C1 at a concrete two-byte ASCII README. -/
theorem readme_present_metadata_witness :
    fsWithReadme "README.md" = some [104, 105] ∧
      utf8Decode [104, 105] = some [104, 105] ∧
      ∃ args, processSetup fsWithReadme fpNone = .ok args ∧ args.name = "rewroute" ∧
        args.version = "0.1.0" ∧ args.python_requires = ">=3.7" :=
  ⟨rfl, rfl, readme_present_metadata fsWithReadme fpNone [104, 105] [104, 105] rfl rfl⟩

/-- Claim C2: with `README.md` absent, processing `setup.py` fails with a
file-not-found error, and no packaging metadata is constructed. -/
theorem readme_absent_build_fails (fs : FileSystem) (fp : FileSystem → List String)
    (h : fs "README.md" = none) :
    processSetup fs fp = .error (.fileNotFound "README.md") ∧
      ∀ args, processSetup fs fp ≠ .ok args := by
  refine ⟨by simp [processSetup, h], fun args hc => ?_⟩
  simp [processSetup, h] at hc

/-- Witness for C2 at a concrete empty directory state. -/
theorem readme_absent_build_fails_witness :
    fsEmpty "README.md" = none ∧
      (processSetup fsEmpty fpNone = .error (.fileNotFound "README.md") ∧
        ∀ args, processSetup fsEmpty fpNone ≠ .ok args) :=
  ⟨rfl, readme_absent_build_fails fsEmpty fpNone rfl⟩

/-- Claim C3: processing the manifest fails if and only if `README.md` is
missing or its bytes do not decode: the read of `README.md` is the only
failure mode, and under a present, decodable README no error is raised. -/
theorem build_error_iff (fs : FileSystem) (fp : FileSystem → List String) :
    (∃ e, processSetup fs fp = .error e) ↔
      fs "README.md" = none ∨
        ∃ bytes, fs "README.md" = some bytes ∧ utf8Decode bytes = none := by
  cases hr : fs "README.md" with
  | none => simp [processSetup, hr]
  | some bytes =>
    cases hd : utf8Decode bytes with
    | none =>
      simp only [processSetup, hr, hd]
      exact ⟨fun _ => Or.inr ⟨bytes, rfl, hd⟩, fun _ => ⟨.decodeError "README.md", rfl⟩⟩
    | some t => simp [processSetup, hr, hd]

/-- Claim C4: the `install_requires` list passed to `setup` is empty in
every successful build. -/
theorem install_requires_empty (fs : FileSystem) (fp : FileSystem → List String)
    (args : SetupArgs) (h : processSetup fs fp = .ok args) :
    args.install_requires = [] := by
  cases hr : fs "README.md" with
  | none => simp [processSetup, hr] at h
  | some bytes =>
    cases hd : utf8Decode bytes with
    | none => simp [processSetup, hr, hd] at h
    | some t =>
      simp [processSetup, hr, hd] at h
      rw [← h]
      rfl

/-- Witness for C4 at a concrete directory state. -/
theorem install_requires_empty_witness :
    processSetup fsWithReadme fpNone = .ok (setupCallArgs [104, 105] []) ∧
      (setupCallArgs [104, 105] []).install_requires = [] :=
  ⟨rfl, install_requires_empty fsWithReadme fpNone (setupCallArgs [104, 105] []) rfl⟩

/-- Claim C5: the manifest declares exactly one extra, named `dev`,
holding `pytest>=6.0`, `black` and `flake8`. -/
theorem extras_require_dev_only (fs : FileSystem) (fp : FileSystem → List String)
    (args : SetupArgs) (h : processSetup fs fp = .ok args) :
    args.extras_require = [("dev", ["pytest>=6.0", "black", "flake8"])] := by
  cases hr : fs "README.md" with
  | none => simp [processSetup, hr] at h
  | some bytes =>
    cases hd : utf8Decode bytes with
    | none => simp [processSetup, hr, hd] at h
    | some t =>
      simp [processSetup, hr, hd] at h
      rw [← h]
      rfl

/-- Witness for C5 at a concrete directory state. -/
theorem extras_require_dev_only_witness :
    processSetup fsWithReadme fpNone = .ok (setupCallArgs [104, 105] []) ∧
      (setupCallArgs [104, 105] []).extras_require =
        [("dev", ["pytest>=6.0", "black", "flake8"])] :=
  ⟨rfl, extras_require_dev_only fsWithReadme fpNone (setupCallArgs [104, 105] []) rfl⟩

/-- Claim C6: the `long_description` passed to `setup` equals exactly the
decoded text contents of `README.md` as read at build time. -/
theorem long_description_is_readme_text (fs : FileSystem)
    (fp : FileSystem → List String) (bytes text : List Nat)
    (hr : fs "README.md" = some bytes) (hd : utf8Decode bytes = some text) :
    ∃ args, processSetup fs fp = .ok args ∧ args.long_description = text := by
  refine ⟨setupCallArgs text (fp fs), ?_, rfl⟩
  simp [processSetup, hr, hd]

/-- Witness for C6 at a concrete two-byte ASCII README. -/
theorem long_description_is_readme_text_witness :
    fsWithReadme "README.md" = some [104, 105] ∧
      utf8Decode [104, 105] = some [104, 105] ∧
      ∃ args, processSetup fsWithReadme fpNone = .ok args ∧
        args.long_description = [104, 105] :=
  ⟨rfl, rfl,
    long_description_is_readme_text fsWithReadme fpNone [104, 105] [104, 105] rfl rfl⟩

/-- Claim C7: `README.md` is decoded as UTF-8, so a present README whose
bytes are not valid UTF-8 makes the build fail with a decode error. -/
theorem invalid_utf8_build_fails (fs : FileSystem) (fp : FileSystem → List String)
    (bytes : List Nat) (hr : fs "README.md" = some bytes)
    (hd : utf8Decode bytes = none) :
    processSetup fs fp = .error (.decodeError "README.md") := by
  simp [processSetup, hr, hd]

/-- Witness for C7 at a README holding the lone continuation byte 0x80,
which is not valid UTF-8. -/
theorem invalid_utf8_build_fails_witness :
    fsBadReadme "README.md" = some [0x80] ∧ utf8Decode [0x80] = none ∧
      processSetup fsBadReadme fpNone = .error (.decodeError "README.md") :=
  ⟨rfl, rfl, invalid_utf8_build_fails fsBadReadme fpNone [0x80] rfl rfl⟩

/-- Claim C8: the read of `README.md` happens strictly before `setup` is
invoked, so when that read fails the run's trace is exactly the failed
read and the `setup` call never occurs. -/
theorem read_precedes_setup (fs : FileSystem) (fp : FileSystem → List String)
    (e : BuildError) (h : processSetup fs fp = .error e) :
    buildTrace fs = [BuildEvent.readmeReadFailed] ∧
      BuildEvent.setupCalled ∉ buildTrace fs := by
  cases hr : fs "README.md" with
  | none => refine ⟨by simp [buildTrace, hr], by simp [buildTrace, hr]⟩
  | some bytes =>
    cases hd : utf8Decode bytes with
    | none => refine ⟨by simp [buildTrace, hr, hd], by simp [buildTrace, hr, hd]⟩
    | some t => simp [processSetup, hr, hd] at h

/-- Witness for C8 at a concrete empty directory state. -/
theorem read_precedes_setup_witness :
    processSetup fsEmpty fpNone = .error (.fileNotFound "README.md") ∧
      (buildTrace fsEmpty = [BuildEvent.readmeReadFailed] ∧
        BuildEvent.setupCalled ∉ buildTrace fsEmpty) :=
  ⟨rfl, read_precedes_setup fsEmpty fpNone (.fileNotFound "README.md") rfl⟩

/-- Claim C9: metadata construction is deterministic: two runs over the
same `README.md` contents pass identical values of the named metadata
fields to `setup`, whatever the rest of the directory state. -/
theorem metadata_deterministic (fs1 fs2 : FileSystem)
    (fp1 fp2 : FileSystem → List String)
    (h : fs1 "README.md" = fs2 "README.md") :
    (processSetup fs1 fp1).map observedMetadata =
      (processSetup fs2 fp2).map observedMetadata := by
  cases hx : fs2 "README.md" with
  | none => simp [processSetup, h, hx]
  | some bytes =>
    cases hd : utf8Decode bytes with
    | none => simp [processSetup, h, hx, hd]
    | some t =>
      simp only [processSetup, h, hx, hd]
      rfl

/-- Witness for C9 at two concrete directory states sharing the README
bytes and two distinct package-discovery results. -/
theorem metadata_deterministic_witness :
    fsWithReadme "README.md" = fsWithReadmeB "README.md" ∧
      (processSetup fsWithReadme fpNone).map observedMetadata =
        (processSetup fsWithReadmeB fpOther).map observedMetadata :=
  ⟨rfl, metadata_deterministic fsWithReadme fsWithReadmeB fpNone fpOther rfl⟩
